import Mathlib

/-!
Shallow embedding of the housing-ml-pipeline prediction-run orchestration
subsystem.

Sources embedded:
* `src/core/domain/entities/housing_record.py` — `HousingRecord` (pydantic
  model with per-field validators and `validate_assignment=True`).
* `src/core/domain/entities/prediction.py` — `PredictionStatus`, `Prediction`
  (pydantic model with no validators).
* `src/core/service/prediction_service.py` — `PredictionService`
  (`submit_prediction_request`, `get_prediction_result`).
* `src/adapter/driven/etl/dagster_adapter.py` — `DagsterETLAdapter`
  (`get_pipeline_status` and its Dagster-status mapping).
* `src/adapter/driven/etl/assets.py` — `cleaned_data`, `prepared_data`.
* `src/adapter/driven/model/model_resource.py` — `ModelResource.predict`
  (the feature-ordering step).
* `src/adapter/driven/storage/postgres_adapter.py` — `PostgresAdapter`
  (`get_prediction` reconstruction from the two tables).

Modelling conventions: Python floats are modelled as `Rat` (the claims under
study only copy, compare and order these values; no floating-point rounding
is involved), timestamps as `Nat`, exceptions as `Except` with a `String`
or structured payload, and the external collaborators (Dagster client,
database session) as explicit inputs describing the outcome of each call.
-/

set_option autoImplicit false

namespace HousingML

/-! ## Domain: HousingRecord (`housing_record.py`) -/

/-- The closed enumeration behind the `OceanProximity` Literal type. -/
inductive OceanProximity where
  | lessOneHOcean
  | inland
  | island
  | nearBay
  | nearOcean
  deriving DecidableEq

/-- The Python string value of each `OceanProximity` member. -/
def OceanProximity.toStr : OceanProximity → String
  | .lessOneHOcean => "<1H OCEAN"
  | .inland => "INLAND"
  | .island => "ISLAND"
  | .nearBay => "NEAR BAY"
  | .nearOcean => "NEAR OCEAN"

/-- The `valid_categories` list used in `assets.py`, in enumeration order. -/
def validCategories : List String :=
  ["<1H OCEAN", "INLAND", "ISLAND", "NEAR BAY", "NEAR OCEAN"]

/-- Parse a stored string into the enumeration (pydantic Literal check). -/
def parseOcean : String → Option OceanProximity
  | "<1H OCEAN" => some .lessOneHOcean
  | "INLAND" => some .inland
  | "ISLAND" => some .island
  | "NEAR BAY" => some .nearBay
  | "NEAR OCEAN" => some .nearOcean
  | _ => none

/-- The `HousingRecord` pydantic model, numeric fields as `Rat`. -/
structure HousingRecord where
  id : String
  longitude : Rat
  latitude : Rat
  housing_median_age : Rat
  total_rooms : Rat
  total_bedrooms : Rat
  population : Rat
  households : Rat
  median_income : Rat
  ocean_proximity : OceanProximity
  deriving DecidableEq

/-- The conjunction of the pydantic field validators of `HousingRecord`. -/
def validRecord (r : HousingRecord) : Bool :=
  (-180 ≤ r.longitude && r.longitude ≤ 180) &&
  (-90 ≤ r.latitude && r.latitude ≤ 90) &&
  (0 ≤ r.housing_median_age) &&
  (0 ≤ r.total_rooms) && (0 ≤ r.total_bedrooms) &&
  (0 ≤ r.population) && (0 ≤ r.households) &&
  (0 ≤ r.median_income)

/-- Constructing a `HousingRecord` through pydantic: each field validator in
field-declaration order, first failure wins; the categorical field must be a
member of the Literal enumeration. -/
def mkHousingRecord (id : String) (longitude latitude housing_median_age
    total_rooms total_bedrooms population households median_income : Rat)
    (ocean_proximity : String) : Except String HousingRecord :=
  if longitude < -180 || longitude > 180 then
    .error "Longitude must be between -180 and 180"
  else if latitude < -90 || latitude > 90 then
    .error "Latitude must be between -90 and 90"
  else if housing_median_age < 0 then
    .error "Housing median age must be positive"
  else if total_rooms < 0 then .error "Value must be positive"
  else if total_bedrooms < 0 then .error "Value must be positive"
  else if population < 0 then .error "Value must be positive"
  else if households < 0 then .error "Value must be positive"
  else if median_income < 0 then .error "Median income must be positive"
  else
    match parseOcean ocean_proximity with
    | none => .error "Input should be a valid ocean proximity"
    | some op =>
        .ok ⟨id, longitude, latitude, housing_median_age, total_rooms,
          total_bedrooms, population, households, median_income, op⟩

/-- The numeric fields of a record, addressable for assignment. -/
inductive FieldKind where
  | longitude
  | latitude
  | housing_median_age
  | total_rooms
  | total_bedrooms
  | population
  | households
  | median_income
  deriving DecidableEq

/-- Read a numeric field. -/
def HousingRecord.getField (r : HousingRecord) : FieldKind → Rat
  | .longitude => r.longitude
  | .latitude => r.latitude
  | .housing_median_age => r.housing_median_age
  | .total_rooms => r.total_rooms
  | .total_bedrooms => r.total_bedrooms
  | .population => r.population
  | .households => r.households
  | .median_income => r.median_income

/-- Raw field update (no validation). -/
def HousingRecord.withField (r : HousingRecord) : FieldKind → Rat → HousingRecord
  | .longitude, v => { r with longitude := v }
  | .latitude, v => { r with latitude := v }
  | .housing_median_age, v => { r with housing_median_age := v }
  | .total_rooms, v => { r with total_rooms := v }
  | .total_bedrooms, v => { r with total_bedrooms := v }
  | .population, v => { r with population := v }
  | .households, v => { r with households := v }
  | .median_income, v => { r with median_income := v }

/-- Whether a proposed value passes the pydantic validator of a field. -/
def fieldOk : FieldKind → Rat → Bool
  | .longitude, v => -180 ≤ v && v ≤ 180
  | .latitude, v => -90 ≤ v && v ≤ 90
  | _, v => 0 ≤ v

/-- Attribute assignment under `validate_assignment=True`: the value is run
through the field's validator; on success the field is updated, on failure a
`ValidationError` is raised and the record is left unchanged. The model is
not frozen, so a validator-passing assignment mutates the record. -/
def HousingRecord.setField (r : HousingRecord) (f : FieldKind) (v : Rat) :
    Except String HousingRecord :=
  if fieldOk f v then .ok (r.withField f v)
  else .error "ValidationError"

/-! ## Domain: Prediction (`prediction.py`) -/

/-- The `PredictionStatus` enumeration. -/
inductive PredictionStatus where
  | pending
  | running
  | completed
  | failed
  | not_found
  deriving DecidableEq

/-- The `Prediction` pydantic model. Fields exactly as declared in
`prediction.py`; the model declares no validators beyond field types. -/
structure Prediction where
  record_id : String
  value : Rat
  created_at : Nat
  status : PredictionStatus := .pending
  record : Option HousingRecord := none
  error : Option String := none
  run_id : Option String := none
  deriving DecidableEq

/-- Constructing a `Prediction` through pydantic: `prediction.py` declares no
field validators and no model validator, so every type-correct argument
tuple is accepted — construction never raises. -/
def Prediction.construct (record_id : String) (value : Rat) (created_at : Nat)
    (status : PredictionStatus) (record : Option HousingRecord)
    (error : Option String) (run_id : Option String) :
    Except String Prediction :=
  .ok ⟨record_id, value, created_at, status, record, error, run_id⟩

/-! ## PredictionService (`prediction_service.py`) -/

/-- The four-valued coarse status vocabulary of the ETL port. -/
inductive CoarseStatus where
  | pending
  | running
  | completed
  | failed
  deriving DecidableEq

/-- The `Union[Prediction, str]` return type of `get_prediction_result`. -/
inductive GetResult where
  | prediction (p : Prediction)
  | coarse (s : CoarseStatus)
  deriving DecidableEq

/-- Exceptions are modelled by their message. -/
abbrev Exc := String

/-- The `try` body of `PredictionService.get_prediction_result`.
`statusRes` is the outcome of `await self.etl.get_pipeline_status(run_id)`
(either a coarse status or a raised exception) and `storageRes` the outcome
of `self.storage.get_prediction(run_id)` (a found/not-found result or a
raised exception); `do`-bind re-raises either exception. -/
def get_prediction_result_body (statusRes : Except Exc CoarseStatus)
    (storageRes : Except Exc (Option Prediction)) : Except Exc GetResult := do
  let status ← statusRes
  if status = .failed then
    return .coarse .failed
  if status = .completed then
    let stored ← storageRes
    match stored with
    | none => return .coarse .failed
    | some p => return .prediction p
  return .coarse status

/-- Full `PredictionService.get_prediction_result`: the `try` body wrapped in the
`except Exception` handler that logs and returns the string `failed`. -/
def get_prediction_result (statusRes : Except Exc CoarseStatus)
    (storageRes : Except Exc (Option Prediction)) : GetResult :=
  match get_prediction_result_body statusRes storageRes with
  | .ok r => r
  | .error _ => .coarse .failed

/-- Embeds `PredictionService.submit_prediction_request`. `startRes` is the outcome
of `await self.etl.start_prediction_pipeline(record)`; `store` is the state
of the record store. If the pipeline start raises, the handler logs and
re-raises, and the storage call is never reached; otherwise the record is
saved (modelled as appending to the store) and the run id is returned.
The returned pair is (result, final store state). -/
def submit_prediction_request (record : HousingRecord)
    (startRes : Except Exc String) (store : List HousingRecord) :
    Except Exc String × List HousingRecord :=
  match startRes with
  | .error e => (.error e, store)
  | .ok run_id => (.ok run_id, store ++ [record])

/-! ## Dagster adapter (`dagster_adapter.py`) -/

/-- The native `DagsterRunStatus` vocabulary of the remote engine. -/
inductive DagsterRunStatus where
  | QUEUED
  | NOT_STARTED
  | MANAGED
  | STARTING
  | STARTED
  | SUCCESS
  | FAILURE
  | CANCELING
  | CANCELED
  deriving DecidableEq

/-- Exceptions a `DagsterGraphQLClient` call can raise. -/
inductive DagsterExc where
  | graphQLClientError (msg : String)
  | otherError (msg : String)
  deriving DecidableEq

/-- The `PipelineError` exception from `exceptions.py`; `cause` models the `from e`
chaining of the original exception. -/
structure PipelineError where
  message : String
  cause : Option DagsterExc
  deriving DecidableEq

/-- The status mapping inside `DagsterETLAdapter.get_pipeline_status`
(dagster_adapter.py lines 123-130). -/
def mapDagsterStatus (status : DagsterRunStatus) : CoarseStatus :=
  if status = .SUCCESS then .completed
  else if status = .FAILURE || status = .CANCELED then .failed
  else if status = .STARTED then .running
  else .pending

/-- Embeds `DagsterETLAdapter.get_pipeline_status`: `clientRes` is the outcome of
`self.client.get_run_status(run_id)`. A returned native status is mapped to
the coarse vocabulary; a raised client exception is wrapped into a
`PipelineError` carrying the original cause and re-raised. -/
def get_pipeline_status (clientRes : Except DagsterExc DagsterRunStatus) :
    Except PipelineError CoarseStatus :=
  match clientRes with
  | .ok status => .ok (mapDagsterStatus status)
  | .error (.graphQLClientError m) =>
      .error ⟨"Dagster client error: " ++ m, some (.graphQLClientError m)⟩
  | .error (.otherError m) =>
      .error ⟨"Error checking pipeline status: " ++ m, some (.otherError m)⟩

/-! ## Dagster assets (`assets.py`) -/

/-- A raw JSON-ish value found in the submission mapping. Strings are
partitioned by whether Python `float(s)` succeeds: `numStr q` stands for a
string that parses to the number `q` (such a string is non-empty, hence
truthy), `badStr s` for a string `float` rejects (`""` included). -/
inductive RawVal where
  | num (q : Rat)
  | numStr (q : Rat)
  | badStr (s : String)
  deriving DecidableEq

/-- Python truthiness test (`if not value`) for an optional raw value:
`None`/absent, the number `0`, and the empty string are falsy. -/
def rawFalsy : Option RawVal → Bool
  | none => true
  | some (.num q) => q = 0
  | some (.numStr _) => false
  | some (.badStr s) => s = ""

/-- The submission mapping consumed by the `cleaned_data` asset. `none`
stands for an absent key (or a `None` value, which `.get` conflates with
absence). `record_id`, when present, is a string per the API payload. -/
structure RawInput where
  record_id : Option String := none
  longitude : Option RawVal := none
  latitude : Option RawVal := none
  housing_median_age : Option RawVal := none
  total_rooms : Option RawVal := none
  total_bedrooms : Option RawVal := none
  population : Option RawVal := none
  households : Option RawVal := none
  median_income : Option RawVal := none
  ocean_proximity : Option RawVal := none
  deriving DecidableEq

/-- Errors raised by the cleaning asset. -/
inductive CleanErr where
  | dataValidation (msg : String)
  | dataCleaning (msg : String)
  deriving DecidableEq

/-- One step of the string-to-float conversion loop of `cleaned_data`: a
present string value is parsed (`DataValidationError` when unparsable);
numbers and absent values pass through unchanged. -/
def convertField (name : String) (v : Option RawVal) :
    Except CleanErr (Option RawVal) :=
  match v with
  | some (.numStr q) => .ok (some (.num q))
  | some (.badStr _) => .error (.dataValidation (name ++ " must be a valid number"))
  | other => .ok other

/-- The per-field type-and-range check of `cleaned_data`:
`not isinstance(x, (int, float)) or x < 0` raises `DataValidationError`. -/
def checkNonNegNum (v : Option RawVal) (msg : String) : Except CleanErr Unit :=
  match v with
  | some (.num q) => if q < 0 then .error (.dataValidation msg) else .ok ()
  | _ => .error (.dataValidation msg)

/-- Extract the number held by a raw value; the callers below only use this
after `checkNonNegNum` has established the value is a number. -/
def rawNum : Option RawVal → Rat
  | some (.num q) => q
  | _ => 0

/-- The `cleaned_data` asset. `freshId` stands for the uuid the
`HousingRecord` id default factory would generate. The steps mirror the
source order: string-to-float conversion over the eight numeric fields,
type/range validation, ocean-proximity validation, the missing-value fill
for `total_bedrooms`, and finally pydantic construction of the
`HousingRecord` (whose `ValidationError` the generic handler converts to
`DataCleaningError`). -/
def cleaned_data (freshId : String) (raw : RawInput) :
    Except CleanErr HousingRecord := do
  let lon ← convertField "longitude" raw.longitude
  let lat ← convertField "latitude" raw.latitude
  let hma ← convertField "housing_median_age" raw.housing_median_age
  let tr ← convertField "total_rooms" raw.total_rooms
  let tb ← convertField "total_bedrooms" raw.total_bedrooms
  let pop ← convertField "population" raw.population
  let hh ← convertField "households" raw.households
  let mi ← convertField "median_income" raw.median_income
  let d : RawInput := { raw with
    longitude := lon
    latitude := lat
    housing_median_age := hma
    total_rooms := tr
    total_bedrooms := tb
    population := pop
    households := hh
    median_income := mi }
  match d.longitude, d.latitude with
  | some (.num _), some (.num _) => pure ()
  | _, _ => throw (.dataValidation "Longitude and latitude must be numeric")
  checkNonNegNum d.housing_median_age "Housing median age must be a non-negative number"
  checkNonNegNum d.total_rooms "Total rooms must be a non-negative number"
  checkNonNegNum d.total_bedrooms "Total bedrooms must be a non-negative number"
  checkNonNegNum d.population "Population must be a non-negative number"
  checkNonNegNum d.households "Households must be a non-negative number"
  checkNonNegNum d.median_income "Median income must be a non-negative number"
  if rawFalsy d.ocean_proximity then
    throw (.dataValidation "Ocean proximity is required")
  let oceanS ← match d.ocean_proximity with
    | some (.badStr s) =>
        if s ∈ validCategories then pure s
        else throw (.dataValidation ("Invalid ocean proximity: " ++ s))
    | _ => throw (.dataValidation "Invalid ocean proximity")
  let d := if d.total_bedrooms = none
    then { d with total_bedrooms := some (.num 0) } else d
  let id := match d.record_id with
    | some s => if s = "" then freshId else s
    | none => freshId
  match mkHousingRecord id (rawNum d.longitude) (rawNum d.latitude)
      (rawNum d.housing_median_age) (rawNum d.total_rooms)
      (rawNum d.total_bedrooms) (rawNum d.population) (rawNum d.households)
      (rawNum d.median_income) oceanS with
  | .error m => throw (.dataCleaning ("Error cleaning data: " ++ m))
  | .ok r => return r

/-- The `prepared_data` asset: the features dict in insertion order after
`ocean_proximity` is popped — the eight numeric fields followed by the five
one-hot `ocean_proximity_*` keys in `valid_categories` order, each `1` when
the record's category equals that key's category and `0` otherwise. -/
def prepared_data (r : HousingRecord) : List (String × Rat) :=
  [("longitude", r.longitude), ("latitude", r.latitude),
   ("housing_median_age", r.housing_median_age),
   ("total_rooms", r.total_rooms), ("total_bedrooms", r.total_bedrooms),
   ("population", r.population), ("households", r.households),
   ("median_income", r.median_income)] ++
  validCategories.map (fun c =>
    ("ocean_proximity_" ++ c, if r.ocean_proximity.toStr = c then 1 else 0))

/-! ## Model resource (`model_resource.py`) -/

/-- The `expected_features` list of `ModelResource.predict`. -/
def expected_features : List String :=
  ["longitude", "latitude", "housing_median_age", "total_rooms",
   "total_bedrooms", "population", "households", "median_income",
   "ocean_proximity_<1H OCEAN", "ocean_proximity_INLAND",
   "ocean_proximity_ISLAND", "ocean_proximity_NEAR BAY",
   "ocean_proximity_NEAR OCEAN"]

/-- Dict lookup `data[feature]` on the features dict. -/
def lookupFeature (data : List (String × Rat)) (k : String) : Option Rat :=
  (data.find? (fun kv => kv.1 = k)).map (fun kv => kv.2)

/-- The feature-ordering step of `ModelResource.predict`:
`[data[feature] for feature in expected_features]`; a missing key raises
(wrapped into `PredictionError` by the surrounding handler). -/
def extract_features (data : List (String × Rat)) : Except String (List Rat) :=
  expected_features.mapM (fun f =>
    match lookupFeature data f with
    | some q => .ok q
    | none => .error ("Error making prediction: KeyError: " ++ f))

/-- The one-hot suffix of the encoding, in enumeration order. -/
def oneHot (o : OceanProximity) : List Rat :=
  validCategories.map (fun c => if o.toStr = c then 1 else 0)

/-- Index of a category in the enumeration order. -/
def categoryIndex : OceanProximity → Nat
  | .lessOneHOcean => 0
  | .inland => 1
  | .island => 2
  | .nearBay => 3
  | .nearOcean => 4

/-! ## Postgres adapter (`postgres_adapter.py`) -/

/-- A row of the `cleaned_housing_records` table. -/
structure CleanedRow where
  id : String
  longitude : Rat
  latitude : Rat
  housing_median_age : Rat
  total_rooms : Rat
  total_bedrooms : Rat
  population : Rat
  households : Rat
  median_income : Rat
  ocean_proximity : String
  deriving DecidableEq

/-- A row of the `predictions` table. -/
structure PredictionRow where
  id : String
  cleaned_record_id : String
  prediction_value : Rat
  run_id : Option String
  created_at : Nat
  deriving DecidableEq

/-- The database state seen by a session. -/
structure DB where
  cleaned : List CleanedRow
  predictions : List PredictionRow
  deriving DecidableEq

/-- Exceptions `PostgresAdapter.get_prediction` can let escape. Only
`SQLAlchemyError` is converted to `StorageError`; the `AttributeError` from
a dangling foreign key and the pydantic `ValidationError` from
reconstructing the `HousingRecord` propagate unhandled. -/
inductive StorageExc where
  | storageError (msg : String)
  | attributeError
  | validationError (msg : String)
  deriving DecidableEq

/-- Reconstruct a `HousingRecord` from a cleaned row
(`HousingRecord(**record_dict)` re-runs the pydantic validators). -/
def rowToRecord (row : CleanedRow) : Except String HousingRecord :=
  mkHousingRecord row.id row.longitude row.latitude row.housing_median_age
    row.total_rooms row.total_bedrooms row.population row.households
    row.median_income row.ocean_proximity

/-- Embeds `PostgresAdapter.get_prediction`: `filter_by(run_id=run_id).first()` on
the predictions table; `None` when no row matches; otherwise the joined
cleaned row is loaded, a `HousingRecord` is rebuilt from it, and the
`Prediction` is reconstructed with status hard-wired to `COMPLETED` (the
extra `id` key in the source dict is ignored by the pydantic model, which
declares no `id` field). -/
def get_prediction (db : DB) (run_id : String) :
    Except StorageExc (Option Prediction) :=
  match db.predictions.find? (fun r => r.run_id = some run_id) with
  | none => .ok none
  | some pr =>
    match db.cleaned.find? (fun c => c.id = pr.cleaned_record_id) with
    | none => .error .attributeError
    | some cr =>
      match rowToRecord cr with
      | .error m => .error (.validationError m)
      | .ok hr =>
          .ok (some { record_id := pr.cleaned_record_id
                      value := pr.prediction_value
                      created_at := pr.created_at
                      status := .completed
                      record := some hr
                      error := none
                      run_id := pr.run_id })

/-- Cast a storage exception into the service-level exception model. -/
def StorageExc.toExc : StorageExc → Exc
  | .storageError m => m
  | .attributeError => "AttributeError"
  | .validationError m => m

/-- The service `get_prediction_result` wired to the concrete
`PostgresAdapter.get_prediction` over a database state. -/
def get_result_via_db (statusRes : Except Exc CoarseStatus) (db : DB)
    (run_id : String) : GetResult :=
  get_prediction_result statusRes
    ((get_prediction db run_id).mapError StorageExc.toExc)

/-! ## Theorems about the claims -/

/-- C1: when the Orchestrator reports `completed` for a run id, a not-found
result from the StorageGateway makes `get_result` return the coarse value
`failed` (a value of the non-throwing result type, not `pending`), while a
found Prediction is returned as-is. -/
theorem c1_completed_reconciliation :
    get_prediction_result (.ok .completed) (.ok none) = .coarse .failed ∧
    ∀ p : Prediction,
      get_prediction_result (.ok .completed) (.ok (some p)) = .prediction p :=
  ⟨rfl, fun _ => rfl⟩

/-- C2: `get_result` never lets an operational exception escape: an exception
from the Orchestrator status query, or from the storage query on the
completed path, collapses to the coarse value `failed`, and every possible
return value is either a Prediction or one of the four coarse statuses. -/
theorem c2_get_result_never_raises :
    (∀ (e : Exc) (storageRes : Except Exc (Option Prediction)),
        get_prediction_result (.error e) storageRes = .coarse .failed) ∧
    (∀ e : Exc,
        get_prediction_result (.ok .completed) (.error e) = .coarse .failed) ∧
    (∀ (statusRes : Except Exc CoarseStatus)
        (storageRes : Except Exc (Option Prediction)),
        (∃ p, get_prediction_result statusRes storageRes = .prediction p) ∨
        get_prediction_result statusRes storageRes = .coarse .pending ∨
        get_prediction_result statusRes storageRes = .coarse .running ∨
        get_prediction_result statusRes storageRes = .coarse .completed ∨
        get_prediction_result statusRes storageRes = .coarse .failed) := by
  refine ⟨fun e storageRes => rfl, fun e => rfl, fun statusRes storageRes => ?_⟩
  rcases statusRes with e | s
  · exact Or.inr (Or.inr (Or.inr (Or.inr rfl)))
  · cases s
    · exact Or.inr (Or.inl rfl)
    · exact Or.inr (Or.inr (Or.inl rfl))
    · rcases storageRes with e | o
      · exact Or.inr (Or.inr (Or.inr (Or.inr rfl)))
      · rcases o with _ | p
        · exact Or.inr (Or.inr (Or.inr (Or.inr rfl)))
        · exact Or.inl ⟨p, rfl⟩
    · exact Or.inr (Or.inr (Or.inr (Or.inr rfl)))

/-- C3: the Dagster status mapping is total and deterministic: SUCCESS maps
to completed, FAILURE and CANCELED to failed, STARTED to running, and each
of the remaining native states (STARTING, MANAGED, QUEUED, NOT_STARTED,
CANCELING) to pending; every native status maps to exactly one of the four
coarse statuses. -/
theorem c3_status_mapping_total :
    mapDagsterStatus .SUCCESS = .completed ∧
    mapDagsterStatus .FAILURE = .failed ∧
    mapDagsterStatus .CANCELED = .failed ∧
    mapDagsterStatus .STARTED = .running ∧
    mapDagsterStatus .STARTING = .pending ∧
    mapDagsterStatus .MANAGED = .pending ∧
    mapDagsterStatus .QUEUED = .pending ∧
    mapDagsterStatus .NOT_STARTED = .pending ∧
    mapDagsterStatus .CANCELING = .pending ∧
    ∀ s : DagsterRunStatus,
      mapDagsterStatus s = .pending ∨ mapDagsterStatus s = .running ∨
      mapDagsterStatus s = .completed ∨ mapDagsterStatus s = .failed := by
  refine ⟨rfl, rfl, rfl, rfl, rfl, rfl, rfl, rfl, rfl, fun s => ?_⟩
  cases s <;> simp [mapDagsterStatus]

/-- C4: `submit` starts the pipeline before persisting: when the
Orchestrator start raises, the exception propagates unchanged and the record
store is left exactly as it was (nothing is persisted); when the start
returns a run id, the record is persisted and the run id returned. -/
theorem c4_submit_error_propagates_nothing_persisted :
    (∀ (record : HousingRecord) (e : Exc) (store : List HousingRecord),
        submit_prediction_request record (.error e) store = (.error e, store)) ∧
    (∀ (record : HousingRecord) (run_id : String) (store : List HousingRecord),
        submit_prediction_request record (.ok run_id) store =
          (.ok run_id, store ++ [record])) :=
  ⟨fun _ _ _ => rfl, fun _ _ _ => rfl⟩

/-- C5 (failing input): a submission payload whose fields are all valid but
whose `total_bedrooms` key is absent is rejected by `cleaned_data` with
`DataValidationError "Total bedrooms must be a non-negative number"` — the
type/range check at assets.py lines 112-117 runs before the missing-value
fill at lines 153-156, so the fill never executes; the same payload with
`total_bedrooms` present succeeds. -/
theorem c5_missing_total_bedrooms_rejected :
    cleaned_data "generated-id"
      { record_id := some "rec-1"
        longitude := some (.num (-122))
        latitude := some (.num 38)
        housing_median_age := some (.num 36)
        total_rooms := some (.num 1336)
        total_bedrooms := none
        population := some (.num 678)
        households := some (.num 249)
        median_income := some (.num 5)
        ocean_proximity := some (.badStr "NEAR OCEAN") } =
      .error (.dataValidation "Total bedrooms must be a non-negative number") ∧
    cleaned_data "generated-id"
      { record_id := some "rec-1"
        longitude := some (.num (-122))
        latitude := some (.num 38)
        housing_median_age := some (.num 36)
        total_rooms := some (.num 1336)
        total_bedrooms := some (.num 258)
        population := some (.num 678)
        households := some (.num 249)
        median_income := some (.num 5)
        ocean_proximity := some (.badStr "NEAR OCEAN") } =
      .ok ⟨"rec-1", -122, 38, 36, 1336, 258, 678, 249, 5, .nearOcean⟩ :=
  ⟨rfl, rfl⟩

/-- C7: a client exception inside `get_pipeline_status` is wrapped into a
`PipelineError` that carries the original exception as its cause and is
re-raised; the result being an `error` value, the call returns no coarse
status on that path — in particular a communication failure is never
reported as the coarse status `failed`. -/
theorem c7_transport_error_raises_pipeline_error :
    ∀ exc : DagsterExc,
      ∃ pe : PipelineError,
        get_pipeline_status (.error exc) = .error pe ∧ pe.cause = some exc := by
  intro exc
  cases exc with
  | graphQLClientError m => exact ⟨_, rfl, rfl⟩
  | otherError m => exact ⟨_, rfl, rfl⟩

/-- C9 (failing input): the `Prediction` model declares no validators, so a
Prediction with status `completed`, a negative value and an empty record id
is constructible — pydantic accepts it without error, although the repo's
own tests (`tests/unit/test_core.py::test_prediction_validation`) expect
both constructions to raise `ValueError`. -/
theorem c9_invalid_prediction_constructible :
    Prediction.construct "" (-100) 0 .completed none none (some "run-1") =
      .ok ⟨"", -100, 0, .completed, none, none, some "run-1"⟩ ∧
    (⟨"", -100, 0, .completed, none, none, some "run-1"⟩ : Prediction).status =
      .completed ∧
    (⟨"", -100, 0, .completed, none, none, some "run-1"⟩ : Prediction).value < 0 ∧
    (⟨"", -100, 0, .completed, none, none, some "run-1"⟩ : Prediction).record_id =
      "" :=
  ⟨rfl, rfl, by decide, rfl⟩

/-- C6: for every record, the feature extraction of `ModelResource.predict`
applied to the `prepared_data` dict yields the eight numeric fields in the
declared order followed by the one-hot expansion over the five categories in
enumeration order; the one-hot suffix is `1` exactly at the record's
category index and `0` at every other index, and the vector has length 13.
Purity and determinism are inherent: the encoding is a function of the
record alone. -/
theorem c6_encoding_fixed_order_one_hot :
    ∀ r : HousingRecord,
      extract_features (prepared_data r) =
        .ok ([r.longitude, r.latitude, r.housing_median_age, r.total_rooms,
              r.total_bedrooms, r.population, r.households, r.median_income] ++
             oneHot r.ocean_proximity) ∧
      oneHot r.ocean_proximity =
        (List.range 5).map
          (fun i => if i = categoryIndex r.ocean_proximity then (1 : Rat) else 0) ∧
      (oneHot r.ocean_proximity).count 1 = 1 ∧
      ([r.longitude, r.latitude, r.housing_median_age, r.total_rooms,
        r.total_bedrooms, r.population, r.households, r.median_income] ++
       oneHot r.ocean_proximity).length = 13 := by
  intro r
  obtain ⟨id, lon, lat, hma, tr, tb, pop, hh, mi, op⟩ := r
  cases op <;> exact ⟨rfl, rfl, rfl, rfl⟩

/-- C8 (counterexample): a validated `HousingRecord` is not immutable —
assigning the in-range value `1` to the `longitude` field of a constructed
record succeeds under `validate_assignment` and yields a record whose
`longitude` differs from the original, so a field can be changed by a
subsequent operation. -/
theorem c8_counterexample_mutation_succeeds :
    HousingRecord.setField ⟨"rec-1", 10, 20, 30, 40, 50, 60, 70, 80, .inland⟩
        .longitude 1 =
      .ok ⟨"rec-1", 1, 20, 30, 40, 50, 60, 70, 80, .inland⟩ ∧
    (⟨"rec-1", 1, 20, 30, 40, 50, 60, 70, 80, .inland⟩ : HousingRecord).longitude ≠
      (⟨"rec-1", 10, 20, 30, 40, 50, 60, 70, 80, .inland⟩ : HousingRecord).longitude :=
  ⟨rfl, by decide⟩

/-- C8 (amended): field assignment on a validated record is re-validated
rather than forbidden: an assignment whose value fails the field's validator
is rejected (no record is produced), an assignment whose value passes the
validator succeeds and updates exactly that field, and every accepted
assignment on a valid record yields a record that still satisfies all
record invariants. -/
theorem c8_assignment_revalidation :
    ∀ (r : HousingRecord) (f : FieldKind) (v : Rat),
      (fieldOk f v = true → r.setField f v = .ok (r.withField f v)) ∧
      (fieldOk f v = false → ∀ r2, r.setField f v ≠ .ok r2) ∧
      (validRecord r = true → fieldOk f v = true →
        validRecord (r.withField f v) = true) := by
  intro r f v
  refine ⟨fun h => ?_, fun h r2 hc => ?_, fun hr hf => ?_⟩
  · simp [HousingRecord.setField, h]
  · simp [HousingRecord.setField, h] at hc
  · cases f <;> simp_all [validRecord, HousingRecord.withField, fieldOk]

/-- C8 (witness): the amended theorem applied at a concrete record and
assignment. -/
theorem c8_assignment_revalidation_witness :
    HousingRecord.setField ⟨"rec-1", 10, 20, 30, 40, 50, 60, 70, 80, .inland⟩
        .latitude 5 =
      .ok (HousingRecord.withField
        ⟨"rec-1", 10, 20, 30, 40, 50, 60, 70, 80, .inland⟩ .latitude 5) ∧
    validRecord (HousingRecord.withField
      ⟨"rec-1", 10, 20, 30, 40, 50, 60, 70, 80, .inland⟩ .latitude 5) = true := by
  have h := c8_assignment_revalidation
    ⟨"rec-1", 10, 20, 30, 40, 50, 60, 70, 80, .inland⟩ .latitude 5
  exact ⟨h.1 (by decide), h.2.2 (by decide) (by decide)⟩

/-- Helper: the service returns a `Prediction` object only when the status
query answered `completed` and the storage query returned exactly that
prediction. -/
theorem stored_of_get_result_prediction
    (statusRes : Except Exc CoarseStatus)
    (storageRes : Except Exc (Option Prediction)) (p : Prediction)
    (h : get_prediction_result statusRes storageRes = .prediction p) :
    storageRes = .ok (some p) ∧ statusRes = .ok .completed := by
  rcases statusRes with e | s
  · exact GetResult.noConfusion h
  · cases s
    · exact GetResult.noConfusion h
    · exact GetResult.noConfusion h
    · rcases storageRes with e | o
      · exact GetResult.noConfusion h
      · rcases o with _ | q
        · exact GetResult.noConfusion h
        · injection h with h1
          subst h1
          exact ⟨rfl, rfl⟩
    · exact GetResult.noConfusion h

/-- C10: every `Prediction` the Postgres adapter returns for a run id is
reconstructed with status `completed` and carries the `HousingRecord`
rebuilt from the cleaned row its stored row references; consequently every
`Prediction` object `get_result` ever hands to a caller has status
`completed`, and `get_result` never returns the bare coarse value
`completed`. -/
theorem c10_found_predictions_are_completed :
    (∀ (db : DB) (rid : String) (p : Prediction),
        get_prediction db rid = .ok (some p) →
        p.status = .completed ∧
        ∃ pr cr hr,
          db.predictions.find? (fun r => r.run_id = some rid) = some pr ∧
          db.cleaned.find? (fun c => c.id = pr.cleaned_record_id) = some cr ∧
          rowToRecord cr = .ok hr ∧
          p.record = some hr ∧ p.record_id = pr.cleaned_record_id ∧
          p.value = pr.prediction_value ∧ p.run_id = pr.run_id) ∧
    (∀ (statusRes : Except Exc CoarseStatus) (db : DB) (rid : String)
        (p : Prediction),
        get_result_via_db statusRes db rid = .prediction p →
        p.status = .completed) ∧
    (∀ (statusRes : Except Exc CoarseStatus)
        (storageRes : Except Exc (Option Prediction)),
        get_prediction_result statusRes storageRes ≠ .coarse .completed) := by
  have main : ∀ (db : DB) (rid : String) (p : Prediction),
      get_prediction db rid = .ok (some p) →
      p.status = .completed ∧
      ∃ pr cr hr,
        db.predictions.find? (fun r => r.run_id = some rid) = some pr ∧
        db.cleaned.find? (fun c => c.id = pr.cleaned_record_id) = some cr ∧
        rowToRecord cr = .ok hr ∧
        p.record = some hr ∧ p.record_id = pr.cleaned_record_id ∧
        p.value = pr.prediction_value ∧ p.run_id = pr.run_id := by
    intro db rid p h
    cases hf : db.predictions.find? (fun r => r.run_id = some rid) with
    | none => simp [get_prediction, hf] at h
    | some pr =>
      cases hc : db.cleaned.find? (fun c => c.id = pr.cleaned_record_id) with
      | none => simp [get_prediction, hf, hc] at h
      | some cr =>
        cases hr : rowToRecord cr with
        | error m => simp [get_prediction, hf, hc, hr] at h
        | ok rec =>
          simp [get_prediction, hf, hc, hr] at h
          subst h
          exact ⟨rfl, pr, cr, rec, rfl, hc, hr, rfl, rfl, rfl, rfl⟩
  refine ⟨main, fun statusRes db rid p h => ?_, fun statusRes storageRes h => ?_⟩
  · have hs := (stored_of_get_result_prediction _ _ _ h).1
    cases hg : get_prediction db rid with
    | error e =>
        rw [show get_result_via_db statusRes db rid =
          get_prediction_result statusRes
            ((get_prediction db rid).mapError StorageExc.toExc) from rfl,
          hg] at h
        exact absurd (stored_of_get_result_prediction _ _ _ h).1
          (by simp [Except.mapError])
    | ok o =>
        rw [show get_result_via_db statusRes db rid =
          get_prediction_result statusRes
            ((get_prediction db rid).mapError StorageExc.toExc) from rfl,
          hg] at h
        have ho := (stored_of_get_result_prediction _ _ _ h).1
        simp [Except.mapError] at ho
        subst ho
        exact (main db rid p hg).1
  · rcases statusRes with e | s
    · exact GetResult.noConfusion h (fun h' => CoarseStatus.noConfusion h')
    · cases s
      · injection h with h1; cases h1
      · injection h with h1; cases h1
      · rcases storageRes with e | o
        · injection h with h1; cases h1
        · rcases o with _ | q
          · injection h with h1; cases h1
          · exact GetResult.noConfusion h
      · injection h with h1; cases h1

/-- C10 (witness): the theorem applied to a one-row database holding a
prediction for run id `run1`. -/
theorem c10_found_predictions_are_completed_witness :
    (⟨"r1", 320201, 7, .completed,
      some ⟨"r1", -122, 38, 36, 1336, 258, 678, 249, 5, .nearOcean⟩,
      none, some "run1"⟩ : Prediction).status = .completed := by
  have h := c10_found_predictions_are_completed
  exact (h.1
    ⟨[⟨"r1", -122, 38, 36, 1336, 258, 678, 249, 5, "NEAR OCEAN"⟩],
     [⟨"p1", "r1", 320201, some "run1", 7⟩]⟩ "run1"
    ⟨"r1", 320201, 7, .completed,
      some ⟨"r1", -122, 38, 36, 1336, 258, 678, 249, 5, .nearOcean⟩,
      none, some "run1"⟩ rfl).1

end HousingML
